import Mathlib

/-!
# Verification of the story-generation pipeline (backend of New-book-generation)

Shallow embedding of the Python backend (`backend/agents.py`,
`backend/orchestrator.py`, `backend/models.py`, `backend/document_formatter.py`).

Conventions of the embedding:

* Python strings are Lean `String`s; every Python string operation used by the
  pipeline (`strip`, `replace`, `split`, slicing, `lower`, substring test) is
  re-implemented below on `List Char` by structural or fuel recursion with
  Python semantics, so that every definition evaluates inside the kernel.
* The Mistral text-generation service and the docx renderer are black boxes:
  an `Oracle` gives, per call site, either the returned text or the raised
  exception message (`Except String String`).
* The Mongo store is a `DBState`: the single relevant `story_projects`
  document plus the `agent_progress` rows keyed by agent name.  Writes are
  modelled exactly as the code performs them (`update_one` with upsert,
  `push` to the chapter array, `inc` of the word count).  Wall-clock
  timestamp fields (`updated_at`, `created_at`) are outside the embedding.
* Progress percentages are exact rationals (`Rat`); the Python floats involved
  are small integer fractions, represented exactly.
* A `RunState` additionally records, in order, every write made to the
  project document that sets its `progress_percentage` field, so that
  temporal claims about the sequence of progress values can be stated.
* Fields of the pydantic models that are only interpolated into prompts
  (worldbuilding details, character traits, plot utility, prompt text) do not
  affect any modelled state and are elided; a character is kept as its name.
-/

/-! ## Python string primitives -/

/-- Python whitespace for `str.strip` / `str.split()`:
space, tab, newline, carriage return, vertical tab, form feed. -/
def pyIsSpace (c : Char) : Bool :=
  c = ' ' || c = '\t' || c = '\n' || c = '\r' || c = '\x0b' || c = '\x0c'

/-- The list `l` with leading and trailing Python whitespace removed. -/
def stripChars (l : List Char) : List Char :=
  ((l.dropWhile pyIsSpace).reverse.dropWhile pyIsSpace).reverse

/-- Python `s.strip()`. -/
def pyStrip (s : String) : String := ⟨stripChars s.data⟩

/-- Fuel-driven worker for `str.replace` (non-overlapping, left to right). -/
def replaceFuel (pat rep : List Char) : Nat → List Char → List Char
  | 0, l => l
  | _ + 1, [] => []
  | fuel + 1, c :: rest =>
    if pat ≠ [] ∧ pat.isPrefixOf (c :: rest) then
      rep ++ replaceFuel pat rep fuel ((c :: rest).drop pat.length)
    else
      c :: replaceFuel pat rep fuel rest

/-- Python `s.replace(pat, rep)` for a nonempty pattern. -/
def pyReplace (s pat rep : String) : String :=
  ⟨replaceFuel pat.data rep.data (s.data.length + 1) s.data⟩

/-- Fuel-driven worker for `str.split(sep)` with a nonempty separator. -/
def splitFuel (sep : List Char) : Nat → List Char → List Char → List (List Char)
  | 0, l, acc => [acc.reverse ++ l]
  | _ + 1, [], acc => [acc.reverse]
  | fuel + 1, c :: rest, acc =>
    if sep.isPrefixOf (c :: rest) then
      acc.reverse :: splitFuel sep fuel ((c :: rest).drop sep.length) []
    else
      splitFuel sep fuel rest (c :: acc)

/-- Python `s.split(sep)` for a nonempty separator. -/
def pySplit (s sep : String) : List String :=
  (splitFuel sep.data (s.data.length + 1) s.data []).map fun l => ⟨l⟩

/-- Python newline join of a list of parts. -/
def joinNL : List String → String
  | [] => ""
  | [a] => a
  | a :: b :: rest => a ++ "\n" ++ joinNL (b :: rest)

/-- Python two-way limited split: split `s` at the first two newlines only. -/
def pySplitNL2 (s : String) : List String :=
  let parts := pySplit s "\n"
  if parts.length ≤ 3 then parts
  else parts.take 2 ++ [joinNL (parts.drop 2)]

/-- Worker for `str.split()` (split on whitespace runs, no empty pieces). -/
def wordsAux : List Char → List Char → List (List Char)
  | [], acc => if acc.isEmpty then [] else [acc.reverse]
  | c :: rest, acc =>
    if pyIsSpace c then
      if acc.isEmpty then wordsAux rest [] else acc.reverse :: wordsAux rest []
    else
      wordsAux rest (c :: acc)

/-- Python `s.split()` with no argument. -/
def pyWords (s : String) : List String := (wordsAux s.data []).map fun l => ⟨l⟩

/-- Python `len(s.split())`: number of whitespace-separated tokens. -/
def pyWordCount (s : String) : Nat := (pyWords s).length

/-- Python `s[:n]` (by code points). -/
def pyTake (n : Nat) (s : String) : String := ⟨s.data.take n⟩

/-- Worker for the Python `sub in s` substring test. -/
def containsAux (sub : List Char) : List Char → Bool
  | [] => sub.isEmpty
  | c :: rest => sub.isPrefixOf (c :: rest) || containsAux sub rest

/-- Python `sub in s`. -/
def pyContains (s sub : String) : Bool := containsAux sub.data s.data

/-- Python `s.lower()` (ASCII, which is all the code compares). -/
def pyLower (s : String) : String := ⟨s.data.map Char.toLower⟩

/-! ## Data model (`backend/models.py`) -/

/-- Model of `AgentStatusEnum` from `models.py`. -/
inductive AgentStatusEnum where
  | pending
  | running
  | completed
  | error
deriving DecidableEq

/-- The string stored in Mongo for a status (`status.value` in Python). -/
def AgentStatusEnum.value : AgentStatusEnum → String
  | .pending => "pending"
  | .running => "running"
  | .completed => "completed"
  | .error => "error"

/-- Model of `ChapterContent` from `models.py`. -/
structure ChapterContent where
  chapter_number : Nat
  title : String
  content : String
  word_count : Nat
  sequential_check_passed : Bool := false
  issues_found : List String := []
  issues_fixed : List String := []
deriving DecidableEq

/-- The fields of the `story_projects` document that the pipeline reads or
writes.  Characters are kept as their names; prompt-only input blocks
(worldbuilding, plot utility, per-character traits) are elided. -/
structure StoryProjectDoc where
  title : String
  target_chapters : Nat
  target_words_per_chapter : Nat := 2000
  characters : List String := []
  current_status : String := "pending"
  current_agent : Option String := none
  progress_percentage : Rat := 0
  chapters : List ChapterContent := []
  total_word_count : Nat := 0
deriving DecidableEq

/-- One `agent_progress` row (fields set by the code; timestamps elided). -/
structure AgentProgressRow where
  status : String
  progress_percentage : Rat
  current_task : Option String
  error_message : Option String
deriving DecidableEq

/-- The store: the project document plus the agent-progress rows of this
project, keyed by agent name. -/
structure DBState where
  project : StoryProjectDoc
  agent_progress : String → Option AgentProgressRow

/-- A recorded write of the `progress_percentage` field of the project document
(with the status, agent name and task written alongside it). -/
structure ProgressWrite where
  agent : String
  status : String
  percentage : Rat
  task : Option String
deriving DecidableEq

/-- State threaded through one orchestration run: the store plus the ordered
trace of writes to the progress-percentage field of the project. -/
structure RunState where
  db : DBState
  writes : List ProgressWrite

/-- Outcomes of every external call a run can make: the text returned by the
Mistral service per call site (or the exception message), and the renderer
outcome.  `character n` is the call for the n-th character (0-based);
`prose n` / `check n` are the generation and checker calls for chapter `n`. -/
structure Oracle where
  world : Except String String
  character : Nat → Except String String
  plot : Except String String
  prose : Nat → Except String String
  check : Nat → Except String String
  render : Except String String

/-- The call at this site returned text rather than raising. -/
def okE (x : Except String String) : Prop := ∃ t, x = Except.ok t

/-! ## `BaseAgent.update_progress` (`agents.py` lines 17-45)

Upserts the `agent_progress` row of the agent and then also overwrites the
`current_agent`, `progress_percentage` and `current_status` fields of the
project document with the name, percentage and status of this agent. -/

/-- Effect of `BaseAgent.update_progress` on the store. -/
def BaseAgent.update_progress (name : String) (status : AgentStatusEnum)
    (progress : Rat) (task : Option String) (error : Option String)
    (db : DBState) : DBState :=
  { project := { db.project with
      current_agent := some name
      progress_percentage := progress
      current_status := status.value }
    agent_progress := fun n =>
      if n = name then some ⟨status.value, progress, task, error⟩
      else db.agent_progress n }

/-- Model of `BaseAgent.update_progress`, additionally recording the write made to the
progress-percentage field of the project. -/
def updTrack (name : String) (status : AgentStatusEnum) (progress : Rat)
    (task error : Option String) (r : RunState) : RunState :=
  { db := BaseAgent.update_progress name status progress task error r.db
    writes := r.writes ++ [⟨name, status.value, progress, task⟩] }

/-- Model of `DocumentFormatter.update_progress` (`document_formatter.py` lines 20-34):
unlike the agents, it only upserts its own `agent_progress` row — it does not
touch the project document (and its `$set` has no `error_message` field, so an
existing error message is preserved). -/
def DocumentFormatter.update_progress (status : AgentStatusEnum)
    (progress : Rat) (task : Option String) (db : DBState) : DBState :=
  { db with agent_progress := fun n =>
      if n = "DocumentFormatter" then
        some ⟨status.value, progress, task,
          (db.agent_progress "DocumentFormatter").bind fun row => row.error_message⟩
      else db.agent_progress n }

/-! ## Stage agents (`agents.py`) -/

/-- Model of `WorldbuildingAgent.process` (`agents.py` lines 47-123): reports 10 then
50 while running, calls the service once, reports completed at 100 on success
or error at 0 (re-raising) on failure.  The returned world context is its
`world_bible` text; the `key_elements` block only feeds later prompts. -/
def WorldbuildingAgent.process (o : Oracle) (r : RunState) :
    Except String String × RunState :=
  let r := updTrack "WorldbuildingAgent" .running 10
    (some "Analyzing worldbuilding context") none r
  let r := updTrack "WorldbuildingAgent" .running 50
    (some "Generating world bible") none r
  match o.world with
  | .ok bible =>
    (.ok bible,
      updTrack "WorldbuildingAgent" .completed 100 (some "World bible completed") none r)
  | .error e =>
    (.error e, updTrack "WorldbuildingAgent" .error 0 none (some e) r)

/-- One write of the character loop: for the 0-based index `i` of
`enumerate(characters)` the percentage is `10 + (i / len(characters)) * 80`. -/
def charStep (total : Nat) (p : Nat × String) (r : RunState) : RunState :=
  updTrack "CharacterAgent" .running (10 + ((p.1 : Rat) / (total : Rat)) * 80)
    (some ("Processing character: " ++ p.2)) none r

/-- Python `enumerate` (0-based). -/
def pyEnum : Nat → List String → List (Nat × String)
  | _, [] => []
  | i, a :: as_ => (i, a) :: pyEnum (i + 1) as_

/-- The per-character loop of `CharacterAgent.process` (`agents.py` lines
133-193): report progress for each character, call the service; a failure
reports error at 0 and re-raises. -/
def CharacterAgent.loop (o : Oracle) (total : Nat) :
    List (Nat × String) → RunState → Except String Unit × RunState
  | [], r => (.ok (), r)
  | p :: ps, r =>
    let r := charStep total p r
    match o.character p.1 with
    | .ok _ => CharacterAgent.loop o total ps r
    | .error e => (.error e, updTrack "CharacterAgent" .error 0 none (some e) r)

/-- Model of `CharacterAgent.process` (`agents.py` lines 125-205). -/
def CharacterAgent.process (o : Oracle) (names : List String) (r : RunState) :
    Except String Unit × RunState :=
  let r := updTrack "CharacterAgent" .running 10 (some "Analyzing character data") none r
  match CharacterAgent.loop o names.length (pyEnum 0 names) r with
  | (.ok _, r) =>
    (.ok (),
      updTrack "CharacterAgent" .completed 100 (some "Character profiles completed") none r)
  | (.error e, r) => (.error e, r)

/-- Model of `PlotAgent.process` (`agents.py` lines 207-272): reports 10 then 50,
one service call, completed at 100.  Its output context carries
`chapter_count = target_chapters`, which is what the chapter loop reads. -/
def PlotAgent.process (o : Oracle) (target_chapters : Nat) (r : RunState) :
    Except String Nat × RunState :=
  let r := updTrack "PlotAgent" .running 10 (some "Analyzing plot elements") none r
  let r := updTrack "PlotAgent" .running 50 (some "Generating plot structure") none r
  match o.plot with
  | .ok _ =>
    (.ok target_chapters,
      updTrack "PlotAgent" .completed 100 (some "Plot structure completed") none r)
  | .error e =>
    (.error e, updTrack "PlotAgent" .error 0 none (some e) r)

/-! ## Checker response parsing (`agents.py` lines 482-512) -/

/-- Model of the issue extraction helper of the sequential checker. -/
def SequentialCheckerAgent.extract_issues (response : String) : List String :=
  if pyContains response "ISSUES_FOUND:" then
    let issuesSection := ((pySplit response "ISSUES_FOUND:").getD 1 "")
    let issuesSection := ((pySplit issuesSection "FIXES_NEEDED:").getD 0 "")
    let issues := ((pySplit issuesSection "\n").map pyStrip).filter fun i => !i.isEmpty
    issues.filter fun i => pyLower i ≠ "none"
  else []

/-- Model of the fix extraction helper of the sequential checker. -/
def SequentialCheckerAgent.extract_fixes (response : String) : List String :=
  if pyContains response "FIXES_NEEDED:" then
    let fixesSection := ((pySplit response "FIXES_NEEDED:").getD 1 "")
    let fixesSection := ((pySplit fixesSection "REVISED_CONTENT:").getD 0 "")
    ((pySplit fixesSection "\n").map pyStrip).filter fun f => !f.isEmpty
  else []

/-- Model of the revised-content extraction helper of the sequential checker. -/
def SequentialCheckerAgent.extract_revised_content (response : String) :
    Option String :=
  if pyContains response "REVISED_CONTENT:" then
    some (pyStrip ((pySplit response "REVISED_CONTENT:").getD 1 ""))
  else none

/-- Reconciliation of a checker response with the chapter (`agents.py` lines
443-461).  Note the Python truthiness test `if revised_content:` treats an
empty revised section like `None`. -/
def SequentialCheckerAgent.apply_response (response : String)
    (chapter : ChapterContent) : ChapterContent :=
  if pyContains response "APPROVED" then
    { chapter with sequential_check_passed := true, issues_found := [], issues_fixed := [] }
  else
    let issues := SequentialCheckerAgent.extract_issues response
    let fixes := SequentialCheckerAgent.extract_fixes response
    let chapter :=
      match SequentialCheckerAgent.extract_revised_content response with
      | some rc =>
        if rc ≠ "" then { chapter with content := rc, word_count := pyWordCount rc }
        else chapter
      | none => chapter
    { chapter with
      sequential_check_passed := issues.length = 0
      issues_found := issues
      issues_fixed := fixes }

/-- Model of `SequentialCheckerAgent.check_and_fix_chapter`, result part (`agents.py`
lines 374-469): on a service failure the chapter is marked passed with a
single synthetic issue describing the failure (and `issues_fixed` is left as
it was); the exception is swallowed. -/
def SequentialCheckerAgent.check_and_fix_chapter
    (outcome : Except String String) (chapter : ChapterContent) : ChapterContent :=
  match outcome with
  | .ok response => SequentialCheckerAgent.apply_response response chapter
  | .error e =>
    { chapter with
      sequential_check_passed := true
      issues_found := ["Checker error: " ++ e] }

/-! ## Chapter construction (`orchestrator.py` lines 189-265) -/

/-- The two lines both summary builders append per chapter: header plus the
first `k` characters of the chapter content (in Python, a slice of length k). -/
def summaryLine (k : Nat) (ch : ChapterContent) : String :=
  "Chapter " ++ toString ch.chapter_number ++ ": " ++ ch.title ++ "\n"
    ++ "Key events: " ++ pyTake k ch.content ++ "...\n\n"

/-- Prior-chapter summary built inside
`MasterOrchestrator._generate_single_chapter` (lines 195-201): the last 2
chapters (`previous_chapters[-2:]`), first 200 characters of each.  It is
interpolated into the prose prompt only. -/
def MasterOrchestrator.previous_chapters_summary
    (previous_chapters : List ChapterContent) : String :=
  if previous_chapters = [] then ""
  else
    (previous_chapters.drop (previous_chapters.length - 2)).foldl
      (fun acc ch => acc ++ summaryLine 200 ch)
      "PREVIOUS CHAPTERS SUMMARY:\n"

/-- Model of the context summary helper of the checker (`agents.py` lines 471-480):
iterates over ALL previous chapters, first 150 characters of each.  It is
interpolated into the checker prompt only. -/
def SequentialCheckerAgent.get_context_summary
    (previous_chapters : List ChapterContent) : String :=
  if previous_chapters = [] then "No previous chapters."
  else
    previous_chapters.foldl
      (fun acc ch => acc ++ summaryLine 150 ch)
      ""

/-- Title extraction of `_generate_single_chapter` (line 249):
strip the first line, delete every hash mark, every occurrence of the word
Chapter, of the decimal chapter number and of the colon, strip again — falling back to
`"Chapter {chapter_num}"` when empty. -/
def MasterOrchestrator.extract_title (chapter_num : Nat) (raw : String) : String :=
  let firstLine := (pySplitNL2 raw).headD ""
  let t := pyStrip (pyReplace (pyReplace (pyReplace (pyReplace
    (pyStrip firstLine) "#" "") "Chapter" "") (toString chapter_num) "") ":" "")
  if t = "" then "Chapter " ++ toString chapter_num else t

/-- Body extraction of `_generate_single_chapter` (lines 253-255): with
after the two-way limited newline split, the body is the stripped second
piece for two lines, the stripped join of the later pieces for three, and the WHOLE raw text when the
raw text has a single line. -/
def MasterOrchestrator.extract_body (raw : String) : String :=
  match pySplitNL2 raw with
  | [_] => raw
  | [_, b] => pyStrip b
  | _ :: rest => pyStrip (joinNL rest)
  | [] => raw

/-- Parsing part of `MasterOrchestrator._generate_single_chapter` (lines
245-265): build the `ChapterContent` from the raw model output. -/
def MasterOrchestrator.generate_single_chapter (chapter_num : Nat)
    (raw : String) : ChapterContent :=
  let body := MasterOrchestrator.extract_body raw
  { chapter_number := chapter_num
    title := MasterOrchestrator.extract_title chapter_num raw
    content := body
    word_count := pyWordCount body }

/-! ## The chapter loop (`orchestrator.py` lines 140-187) -/

/-- The raw text returned by the prose call for chapter `n` (meaningful when
that call succeeds). -/
def proseText (o : Oracle) (n : Nat) : String :=
  match o.prose n with
  | .ok t => t
  | .error _ => ""

/-- The chapter committed for chapter number `n`: the parsed generated
chapter, reconciled with the checker outcome for `n`. -/
def checkedChapter (o : Oracle) (n : Nat) : ChapterContent :=
  SequentialCheckerAgent.check_and_fix_chapter (o.check n)
    (MasterOrchestrator.generate_single_chapter n (proseText o n))

/-- The commit of one chapter (`orchestrator.py` lines 171-178):
`$push` the chapter onto the `chapters` array of the project and `$inc` its
`total_word_count`. -/
def commitChapter (ch : ChapterContent) (r : RunState) : RunState :=
  { r with db := { r.db with project := { r.db.project with
      chapters := r.db.project.chapters ++ [ch]
      total_word_count := r.db.project.total_word_count + ch.word_count } } }

/-- The progress write of the story generator for chapter `n` of
`chapter_count` — `(chapter_num / chapter_count) * 85` (line 151). -/
def sgWrite (chapter_count n : Nat) : ProgressWrite :=
  ⟨"StoryGeneratorAgent", "running", ((n : Rat) / (chapter_count : Rat)) * 85,
    some ("Writing Chapter " ++ toString n)⟩

/-- The progress write of the sequential checker for chapter `n` —
`chapter.chapter_number * 10` (`agents.py` lines 378-380). -/
def ckWrite (n : Nat) : ProgressWrite :=
  ⟨"SequentialCheckerAgent", "running", (n : Rat) * 10,
    some ("Checking Chapter " ++ toString n)⟩

/-- The state transformation of one successful iteration of the chapter loop
for chapter `n`: the two progress reports and the commit. -/
def chapterStep (o : Oracle) (chapter_count n : Nat) (r : RunState) : RunState :=
  commitChapter (checkedChapter o n)
    (updTrack "SequentialCheckerAgent" .running ((n : Rat) * 10)
      (some ("Checking Chapter " ++ toString n)) none
      (updTrack "StoryGeneratorAgent" .running ((n : Rat) / (chapter_count : Rat) * 85)
        (some ("Writing Chapter " ++ toString n)) none r))

/-- The `for chapter_num in range(1, chapter_count + 1)` loop of
`MasterOrchestrator._generate_and_check_story`, over the remaining chapter
numbers.  A prose failure propagates immediately (no chapter committed for
it); a checker failure is absorbed inside `check_and_fix_chapter`. -/
def MasterOrchestrator.story_loop (o : Oracle) (chapter_count : Nat) :
    List Nat → List ChapterContent → RunState →
    Except String (List ChapterContent) × RunState
  | [], acc, r => (.ok acc, r)
  | n :: ns, acc, r =>
    let r := updTrack "StoryGeneratorAgent" .running
      ((n : Rat) / (chapter_count : Rat) * 85)
      (some ("Writing Chapter " ++ toString n)) none r
    match o.prose n with
    | .error e => (.error e, r)
    | .ok raw =>
      let chapter := MasterOrchestrator.generate_single_chapter n raw
      let r := updTrack "SequentialCheckerAgent" .running ((n : Rat) * 10)
        (some ("Checking Chapter " ++ toString n)) none r
      let checked := SequentialCheckerAgent.check_and_fix_chapter (o.check n) chapter
      let r := commitChapter checked r
      MasterOrchestrator.story_loop o chapter_count ns (acc ++ [checked]) r

/-- Model of the generate-and-check phase (orchestrator lines 140-187): run the
loop for chapters `1 .. chapter_count`, then mark the story generator
completed at 100. -/
def MasterOrchestrator.generate_and_check_story (o : Oracle)
    (chapter_count : Nat) (r : RunState) :
    Except String (List ChapterContent) × RunState :=
  match MasterOrchestrator.story_loop o chapter_count
      (List.range' 1 chapter_count) [] r with
  | (.ok chapters, r) =>
    (.ok chapters,
      updTrack "StoryGeneratorAgent" .completed 100 (some "All chapters completed") none r)
  | (.error e, r) => (.error e, r)

/-- Model of the document-formatting phase (lines 267-282): formatter
reports running at 50, renders, reports completed at 100.  A renderer failure
re-raises before the second report. -/
def MasterOrchestrator.format_final_document (o : Oracle) (r : RunState) :
    Except String String × RunState :=
  let r := { r with db :=
    DocumentFormatter.update_progress .running 50 (some "Formatting document for KDP") r.db }
  match o.render with
  | .ok path =>
    let db := DocumentFormatter.update_progress .completed 100
      (some "Document formatting completed") r.db
    (.ok path, { r with db := db })
  | .error e => (.error e, r)

/-- The six tracked agent names (`orchestrator.py` lines 116-123). -/
def agentNames : List String :=
  ["WorldbuildingAgent", "CharacterAgent", "PlotAgent",
   "StoryGeneratorAgent", "SequentialCheckerAgent", "DocumentFormatter"]

/-- Model of the agent tracking initialisation (lines 114-138): reset the
six agent rows to pending at 0 (project document untouched). -/
def MasterOrchestrator.initialize_agent_tracking (db : DBState) : DBState :=
  { db with agent_progress := fun n =>
      if n ∈ agentNames then some ⟨"pending", 0, none, none⟩
      else db.agent_progress n }

/-- The error handler of `orchestrate_story_generation` (lines 98-112): set
the `current_status` of the project to the error value (only that field) and re-raise. -/
def setErrorStatus (r : RunState) : RunState :=
  { r with db := { r.db with project := { r.db.project with current_status := "error" } } }

/-- The final success update of `orchestrate_story_generation` (lines 71-83):
`$set` `current_status = "completed"`, `progress_percentage = 100` and
`total_word_count` to the sum of the word counts of the chapters of this run. -/
def finalUpdate (chapters : List ChapterContent) (r : RunState) : RunState :=
  { db := { r.db with project := { r.db.project with
      current_status := "completed"
      progress_percentage := 100
      total_word_count := (chapters.map fun ch => ch.word_count).sum } }
    writes := r.writes ++ [⟨"Orchestrator", "completed", 100, none⟩] }

/-- The run state after `_initialize_agent_tracking`. -/
def initState (r : RunState) : RunState :=
  { r with db := MasterOrchestrator.initialize_agent_tracking r.db }

/-- Phase 5 of `orchestrate_story_generation` (lines 65-96): document
formatting, then the final success update. -/
def orchPhase5 (o : Oracle) (chapters : List ChapterContent) (r : RunState) :
    Except String (List ChapterContent) × RunState :=
  match MasterOrchestrator.format_final_document o r with
  | (.error e, r) => (.error e, setErrorStatus r)
  | (.ok _, r) => (.ok chapters, finalUpdate chapters r)

/-- Phase 4 of `orchestrate_story_generation` (lines 58-63): the chapter
loop. -/
def orchPhase4 (o : Oracle) (chapter_count : Nat) (r : RunState) :
    Except String (List ChapterContent) × RunState :=
  match MasterOrchestrator.generate_and_check_story o chapter_count r with
  | (.error e, r) => (.error e, setErrorStatus r)
  | (.ok chapters, r) => orchPhase5 o chapters r

/-- Phase 3 of `orchestrate_story_generation` (lines 51-56): plot structure
creation; its output carries `chapter_count = target_chapters`. -/
def orchPhase3 (o : Oracle) (r : RunState) :
    Except String (List ChapterContent) × RunState :=
  match PlotAgent.process o r.db.project.target_chapters r with
  | (.error e, r) => (.error e, setErrorStatus r)
  | (.ok chapter_count, r) => orchPhase4 o chapter_count r

/-- Phase 2 of `orchestrate_story_generation` (lines 45-49): character
development. -/
def orchPhase2 (o : Oracle) (r : RunState) :
    Except String (List ChapterContent) × RunState :=
  match CharacterAgent.process o r.db.project.characters r with
  | (.error e, r) => (.error e, setErrorStatus r)
  | (.ok _, r) => orchPhase3 o r

/-- Model of `MasterOrchestrator.orchestrate_story_generation` (lines 24-112): the five
phases in order (split here into one definition per phase, with the shared
error handler applied at every phase); any uncaught stage failure sets the
project status to `"error"` and re-raises.  (The project document is assumed
present; the not-found `ValueError` path and store failures are outside the
claims.)  On success the returned value carries the chapters of the run. -/
def MasterOrchestrator.orchestrate_story_generation (o : Oracle) (r₀ : RunState) :
    Except String (List ChapterContent) × RunState :=
  match WorldbuildingAgent.process o (initState r₀) with
  | (.error e, r) => (.error e, setErrorStatus r)
  | (.ok _, r) => orchPhase2 o r

/-! ## Named intermediate states of a run -/

/-- The run state after a successful worldbuilding phase. -/
def worldOkRun (r : RunState) : RunState :=
  updTrack "WorldbuildingAgent" .completed 100 (some "World bible completed") none
    (updTrack "WorldbuildingAgent" .running 50 (some "Generating world bible") none
      (updTrack "WorldbuildingAgent" .running 10 (some "Analyzing worldbuilding context") none r))

/-- The state reached by the per-character loop (all calls succeeding). -/
def charLoopState (total : Nat) : List (Nat × String) → RunState → RunState
  | [], r => r
  | p :: ps, r => charLoopState total ps (charStep total p r)

/-- The run state after a successful character phase over `names`. -/
def charOkRun (names : List String) (r : RunState) : RunState :=
  updTrack "CharacterAgent" .completed 100 (some "Character profiles completed") none
    (charLoopState names.length (pyEnum 0 names)
      (updTrack "CharacterAgent" .running 10 (some "Analyzing character data") none r))

/-- The run state after a successful plot phase. -/
def plotOkRun (r : RunState) : RunState :=
  updTrack "PlotAgent" .completed 100 (some "Plot structure completed") none
    (updTrack "PlotAgent" .running 50 (some "Generating plot structure") none
      (updTrack "PlotAgent" .running 10 (some "Analyzing plot elements") none r))

/-- The state reached by the chapter loop over the given chapter numbers
(all prose calls succeeding). -/
def storyLoopState (o : Oracle) (chapter_count : Nat) :
    List Nat → RunState → RunState
  | [], r => r
  | n :: ns, r => storyLoopState o chapter_count ns (chapterStep o chapter_count n r)

/-- The run state after a successful chapter loop plus its closing report. -/
def postLoopRun (o : Oracle) (chapter_count : Nat) (r : RunState) : RunState :=
  updTrack "StoryGeneratorAgent" .completed 100 (some "All chapters completed") none
    (storyLoopState o chapter_count (List.range' 1 chapter_count) r)

/-- The run state after a successful formatting phase. -/
def fmtOkRun (r : RunState) : RunState :=
  let db := DocumentFormatter.update_progress .running 50
    (some "Formatting document for KDP") r.db
  let db := DocumentFormatter.update_progress .completed 100
    (some "Document formatting completed") db
  { r with db := db }

/-- The run state of a fully successful run, before the final update. -/
def successRun (o : Oracle) (r₀ : RunState) : RunState :=
  fmtOkRun (postLoopRun o r₀.db.project.target_chapters
    (plotOkRun (charOkRun r₀.db.project.characters (worldOkRun (initState r₀)))))

/-- The progress write of the character loop for `enumerate` entry `p`. -/
def charWrite (total : Nat) (p : Nat × String) : ProgressWrite :=
  ⟨"CharacterAgent", "running", 10 + ((p.1 : Rat) / (total : Rat)) * 80,
    some ("Processing character: " ++ p.2)⟩

/-- The progress writes of the chapter loop, two per chapter. -/
def perChapterWrites (chapter_count : Nat) : List Nat → List ProgressWrite
  | [] => []
  | n :: ns => sgWrite chapter_count n :: ckWrite n :: perChapterWrites chapter_count ns

/-- All writes to the progress-percentage field of the project made by one fully
successful run, in order. -/
def successWrites (names : List String) (N : Nat) : List ProgressWrite :=
  [⟨"WorldbuildingAgent", "running", 10, some "Analyzing worldbuilding context"⟩,
   ⟨"WorldbuildingAgent", "running", 50, some "Generating world bible"⟩,
   ⟨"WorldbuildingAgent", "completed", 100, some "World bible completed"⟩,
   ⟨"CharacterAgent", "running", 10, some "Analyzing character data"⟩] ++
  (pyEnum 0 names).map (charWrite names.length) ++
  [⟨"CharacterAgent", "completed", 100, some "Character profiles completed"⟩,
   ⟨"PlotAgent", "running", 10, some "Analyzing plot elements"⟩,
   ⟨"PlotAgent", "running", 50, some "Generating plot structure"⟩,
   ⟨"PlotAgent", "completed", 100, some "Plot structure completed"⟩] ++
  perChapterWrites N (List.range' 1 N) ++
  [⟨"StoryGeneratorAgent", "completed", 100, some "All chapters completed"⟩,
   ⟨"Orchestrator", "completed", 100, none⟩]

/-! ## Concrete fixtures -/

/-- A project document as freshly created by the API, with `n` target
chapters and one character. -/
def baseProject (n : Nat) : StoryProjectDoc :=
  { title := "Book", target_chapters := n, characters := ["Ava"] }

/-- An initial run state: the freshly created project, no agent rows yet,
no recorded writes. -/
def run0 (p : StoryProjectDoc) : RunState :=
  { db := { project := p, agent_progress := fun _ => none }, writes := [] }

/-- An oracle on which every external call succeeds. -/
def okOracle : Oracle :=
  { world := .ok "WB"
    character := fun _ => .ok "CP"
    plot := .ok "PS"
    prose := fun _ => .ok "The Title\nSome body text here"
    check := fun _ => .ok "APPROVED"
    render := .ok "/app/backend/generated_books/Book_p.docx" }

/-! ## Frame and projection lemmas -/

@[simp] theorem updTrack_writes (n s q t e r) :
    (updTrack n s q t e r).writes = r.writes ++ [⟨n, s.value, q, t⟩] := rfl

@[simp] theorem updTrack_chapters (n s q t e r) :
    (updTrack n s q t e r).db.project.chapters = r.db.project.chapters := rfl

@[simp] theorem updTrack_total (n s q t e r) :
    (updTrack n s q t e r).db.project.total_word_count
      = r.db.project.total_word_count := rfl

@[simp] theorem updTrack_target (n s q t e r) :
    (updTrack n s q t e r).db.project.target_chapters
      = r.db.project.target_chapters := rfl

@[simp] theorem updTrack_characters (n s q t e r) :
    (updTrack n s q t e r).db.project.characters
      = r.db.project.characters := rfl

@[simp] theorem updTrack_title (n s q t e r) :
    (updTrack n s q t e r).db.project.title = r.db.project.title := rfl

@[simp] theorem updTrack_status (n s q t e r) :
    (updTrack n s q t e r).db.project.current_status = s.value := rfl

@[simp] theorem updTrack_progress (n s q t e r) :
    (updTrack n s q t e r).db.project.progress_percentage = q := rfl

@[simp] theorem updTrack_agent (n s q t e r) :
    (updTrack n s q t e r).db.project.current_agent = some n := rfl

@[simp] theorem commitChapter_writes (ch r) :
    (commitChapter ch r).writes = r.writes := rfl

@[simp] theorem commitChapter_chapters (ch r) :
    (commitChapter ch r).db.project.chapters
      = r.db.project.chapters ++ [ch] := rfl

@[simp] theorem commitChapter_total (ch r) :
    (commitChapter ch r).db.project.total_word_count
      = r.db.project.total_word_count + ch.word_count := rfl

@[simp] theorem commitChapter_target (ch r) :
    (commitChapter ch r).db.project.target_chapters
      = r.db.project.target_chapters := rfl

@[simp] theorem commitChapter_characters (ch r) :
    (commitChapter ch r).db.project.characters
      = r.db.project.characters := rfl

@[simp] theorem commitChapter_title (ch r) :
    (commitChapter ch r).db.project.title = r.db.project.title := rfl

@[simp] theorem initState_project (r) :
    (initState r).db.project = r.db.project := rfl

@[simp] theorem initState_writes (r) : (initState r).writes = r.writes := rfl

@[simp] theorem fmtOkRun_project (r) :
    (fmtOkRun r).db.project = r.db.project := rfl

@[simp] theorem fmtOkRun_writes (r) : (fmtOkRun r).writes = r.writes := rfl

@[simp] theorem setErrorStatus_status (r) :
    (setErrorStatus r).db.project.current_status = "error" := rfl

@[simp] theorem setErrorStatus_chapters (r) :
    (setErrorStatus r).db.project.chapters = r.db.project.chapters := rfl

@[simp] theorem setErrorStatus_writes (r) :
    (setErrorStatus r).writes = r.writes := rfl

@[simp] theorem finalUpdate_status (chs r) :
    (finalUpdate chs r).db.project.current_status = "completed" := rfl

@[simp] theorem finalUpdate_progress (chs r) :
    (finalUpdate chs r).db.project.progress_percentage = 100 := rfl

@[simp] theorem finalUpdate_total (chs r) :
    (finalUpdate chs r).db.project.total_word_count
      = (chs.map fun ch => ch.word_count).sum := rfl

@[simp] theorem finalUpdate_chapters (chs r) :
    (finalUpdate chs r).db.project.chapters = r.db.project.chapters := rfl

@[simp] theorem finalUpdate_writes (chs r) :
    (finalUpdate chs r).writes = r.writes ++ [⟨"Orchestrator", "completed", 100, none⟩] := rfl

@[simp] theorem AgentStatusEnum.value_pending :
    AgentStatusEnum.pending.value = "pending" := rfl

@[simp] theorem AgentStatusEnum.value_running :
    AgentStatusEnum.running.value = "running" := rfl

@[simp] theorem AgentStatusEnum.value_completed :
    AgentStatusEnum.completed.value = "completed" := rfl

@[simp] theorem AgentStatusEnum.value_error :
    AgentStatusEnum.error.value = "error" := rfl

theorem charLoopState_writes (total : Nat) (ps : List (Nat × String)) (r : RunState) :
    (charLoopState total ps r).writes = r.writes ++ ps.map (charWrite total) := by
  induction ps generalizing r with
  | nil => simp [charLoopState]
  | cons p ps ih => simp [charLoopState, ih, charStep, charWrite]

theorem charLoopState_chapters (total : Nat) (ps : List (Nat × String)) (r : RunState) :
    (charLoopState total ps r).db.project.chapters = r.db.project.chapters := by
  induction ps generalizing r with
  | nil => rfl
  | cons p ps ih => simp [charLoopState, ih, charStep]

theorem charLoopState_total (total : Nat) (ps : List (Nat × String)) (r : RunState) :
    (charLoopState total ps r).db.project.total_word_count
      = r.db.project.total_word_count := by
  induction ps generalizing r with
  | nil => rfl
  | cons p ps ih => simp [charLoopState, ih, charStep]

theorem charLoopState_target (total : Nat) (ps : List (Nat × String)) (r : RunState) :
    (charLoopState total ps r).db.project.target_chapters
      = r.db.project.target_chapters := by
  induction ps generalizing r with
  | nil => rfl
  | cons p ps ih => simp [charLoopState, ih, charStep]

theorem charLoopState_characters (total : Nat) (ps : List (Nat × String)) (r : RunState) :
    (charLoopState total ps r).db.project.characters
      = r.db.project.characters := by
  induction ps generalizing r with
  | nil => rfl
  | cons p ps ih => simp [charLoopState, ih, charStep]

theorem charLoopState_title (total : Nat) (ps : List (Nat × String)) (r : RunState) :
    (charLoopState total ps r).db.project.title = r.db.project.title := by
  induction ps generalizing r with
  | nil => rfl
  | cons p ps ih => simp [charLoopState, ih, charStep]

theorem storyLoopState_writes (o : Oracle) (cc : Nat) (ns : List Nat) (r : RunState) :
    (storyLoopState o cc ns r).writes = r.writes ++ perChapterWrites cc ns := by
  induction ns generalizing r with
  | nil => simp [storyLoopState, perChapterWrites]
  | cons n ns ih =>
    simp [storyLoopState, ih, chapterStep, perChapterWrites, sgWrite, ckWrite]

theorem storyLoopState_chapters (o : Oracle) (cc : Nat) (ns : List Nat) (r : RunState) :
    (storyLoopState o cc ns r).db.project.chapters
      = r.db.project.chapters ++ ns.map (checkedChapter o) := by
  induction ns generalizing r with
  | nil => simp [storyLoopState]
  | cons n ns ih => simp [storyLoopState, ih, chapterStep]

theorem storyLoopState_total (o : Oracle) (cc : Nat) (ns : List Nat) (r : RunState) :
    (storyLoopState o cc ns r).db.project.total_word_count
      = r.db.project.total_word_count
        + (ns.map fun n => (checkedChapter o n).word_count).sum := by
  induction ns generalizing r with
  | nil => simp [storyLoopState]
  | cons n ns ih => simp [storyLoopState, ih, chapterStep]; omega

theorem storyLoopState_target (o : Oracle) (cc : Nat) (ns : List Nat) (r : RunState) :
    (storyLoopState o cc ns r).db.project.target_chapters
      = r.db.project.target_chapters := by
  induction ns generalizing r with
  | nil => rfl
  | cons n ns ih => simp [storyLoopState, ih, chapterStep]

theorem storyLoopState_characters (o : Oracle) (cc : Nat) (ns : List Nat) (r : RunState) :
    (storyLoopState o cc ns r).db.project.characters
      = r.db.project.characters := by
  induction ns generalizing r with
  | nil => rfl
  | cons n ns ih => simp [storyLoopState, ih, chapterStep]

theorem storyLoopState_title (o : Oracle) (cc : Nat) (ns : List Nat) (r : RunState) :
    (storyLoopState o cc ns r).db.project.title = r.db.project.title := by
  induction ns generalizing r with
  | nil => rfl
  | cons n ns ih => simp [storyLoopState, ih, chapterStep]

theorem world_process_ok (o : Oracle) (w : String)
    (h : o.world = .ok w) (r : RunState) :
    WorldbuildingAgent.process o r = (.ok w, worldOkRun r) := by
  simp [WorldbuildingAgent.process, worldOkRun, h]

theorem CharacterAgent.loop_ok (o : Oracle) (total : Nat)
    (h : ∀ i, okE (o.character i)) (ps : List (Nat × String)) (r : RunState) :
    CharacterAgent.loop o total ps r = (.ok (), charLoopState total ps r) := by
  induction ps generalizing r with
  | nil => rfl
  | cons p ps ih =>
    obtain ⟨t, ht⟩ := h p.1
    simp [CharacterAgent.loop, charLoopState, ht, ih]

theorem character_process_ok (o : Oracle)
    (h : ∀ i, okE (o.character i)) (names : List String) (r : RunState) :
    CharacterAgent.process o names r = (.ok (), charOkRun names r) := by
  simp [CharacterAgent.process, charOkRun,
    CharacterAgent.loop_ok o names.length h]

theorem plot_process_ok (o : Oracle) (p : String) (h : o.plot = .ok p)
    (tc : Nat) (r : RunState) :
    PlotAgent.process o tc r = (.ok tc, plotOkRun r) := by
  simp [PlotAgent.process, plotOkRun, h]

theorem MasterOrchestrator.story_loop_ok (o : Oracle) (cc : Nat) (ns : List Nat)
    (h : ∀ n ∈ ns, okE (o.prose n)) (acc : List ChapterContent) (r : RunState) :
    MasterOrchestrator.story_loop o cc ns acc r
      = (.ok (acc ++ ns.map (checkedChapter o)), storyLoopState o cc ns r) := by
  induction ns generalizing acc r with
  | nil => simp [MasterOrchestrator.story_loop, storyLoopState]
  | cons n ns ih =>
    obtain ⟨t, ht⟩ := h n (List.mem_cons_self n ns)
    have hrest : ∀ m ∈ ns, okE (o.prose m) := fun m hm => h m (List.mem_cons_of_mem _ hm)
    simp only [MasterOrchestrator.story_loop, ht]
    rw [ih hrest]
    simp [storyLoopState, chapterStep, checkedChapter, proseText, ht]

theorem MasterOrchestrator.story_loop_fail (o : Oracle) (cc : Nat)
    (ns₁ : List Nat) (k : Nat) (ns₂ : List Nat) (e : String)
    (h1 : ∀ n ∈ ns₁, okE (o.prose n)) (h2 : o.prose k = .error e)
    (acc : List ChapterContent) (r : RunState) :
    MasterOrchestrator.story_loop o cc (ns₁ ++ k :: ns₂) acc r
      = (.error e,
         updTrack "StoryGeneratorAgent" .running ((k : Rat) / (cc : Rat) * 85)
           (some ("Writing Chapter " ++ toString k)) none
           (storyLoopState o cc ns₁ r)) := by
  induction ns₁ generalizing acc r with
  | nil => simp [MasterOrchestrator.story_loop, h2, storyLoopState]
  | cons n ns ih =>
    obtain ⟨t, ht⟩ := h1 n (List.mem_cons_self n ns)
    have hrest : ∀ m ∈ ns, okE (o.prose m) := fun m hm => h1 m (List.mem_cons_of_mem _ hm)
    simp only [List.cons_append, MasterOrchestrator.story_loop, ht, List.append_eq]
    rw [ih hrest]
    simp [storyLoopState, chapterStep, checkedChapter, proseText, ht]

theorem MasterOrchestrator.generate_ok (o : Oracle) (cc : Nat)
    (h : ∀ n ∈ List.range' 1 cc, okE (o.prose n)) (r : RunState) :
    MasterOrchestrator.generate_and_check_story o cc r
      = (.ok ((List.range' 1 cc).map (checkedChapter o)), postLoopRun o cc r) := by
  simp [MasterOrchestrator.generate_and_check_story,
    MasterOrchestrator.story_loop_ok o cc (List.range' 1 cc) h, postLoopRun]

theorem MasterOrchestrator.format_ok (o : Oracle) (d : String)
    (h : o.render = .ok d) (r : RunState) :
    MasterOrchestrator.format_final_document o r = (.ok d, fmtOkRun r) := by
  simp [MasterOrchestrator.format_final_document, fmtOkRun, h]

/-- A fully successful run evaluates to its explicit final state. -/
theorem MasterOrchestrator.orchestrate_ok (o : Oracle) (r₀ : RunState)
    (w p d : String)
    (hw : o.world = .ok w) (hchar : ∀ i, okE (o.character i))
    (hpl : o.plot = .ok p)
    (hpr : ∀ n ∈ List.range' 1 r₀.db.project.target_chapters, okE (o.prose n))
    (hrd : o.render = .ok d) :
    MasterOrchestrator.orchestrate_story_generation o r₀
      = (.ok ((List.range' 1 r₀.db.project.target_chapters).map (checkedChapter o)),
         finalUpdate
           ((List.range' 1 r₀.db.project.target_chapters).map (checkedChapter o))
           (successRun o r₀)) := by
  have e1 : MasterOrchestrator.orchestrate_story_generation o r₀
      = orchPhase2 o (worldOkRun (initState r₀)) := by
    unfold MasterOrchestrator.orchestrate_story_generation
    rw [world_process_ok o w hw]
  have hchars : (worldOkRun (initState r₀)).db.project.characters
      = r₀.db.project.characters := by
    simp [worldOkRun]
  have e2 : orchPhase2 o (worldOkRun (initState r₀))
      = orchPhase3 o
          (charOkRun r₀.db.project.characters (worldOkRun (initState r₀))) := by
    unfold orchPhase2
    rw [hchars, character_process_ok o hchar]
  have htgt :
      (charOkRun r₀.db.project.characters (worldOkRun (initState r₀))).db.project.target_chapters
        = r₀.db.project.target_chapters := by
    simp [charOkRun, charLoopState_target, worldOkRun]
  have e3 : orchPhase3 o
        (charOkRun r₀.db.project.characters (worldOkRun (initState r₀)))
      = orchPhase4 o r₀.db.project.target_chapters
          (plotOkRun (charOkRun r₀.db.project.characters (worldOkRun (initState r₀)))) := by
    unfold orchPhase3
    rw [htgt, plot_process_ok o p hpl]
  have e4 : orchPhase4 o r₀.db.project.target_chapters
        (plotOkRun (charOkRun r₀.db.project.characters (worldOkRun (initState r₀))))
      = orchPhase5 o
          ((List.range' 1 r₀.db.project.target_chapters).map (checkedChapter o))
          (postLoopRun o r₀.db.project.target_chapters
            (plotOkRun (charOkRun r₀.db.project.characters (worldOkRun (initState r₀))))) := by
    unfold orchPhase4
    rw [MasterOrchestrator.generate_ok o r₀.db.project.target_chapters hpr]
  have e5 : orchPhase5 o
        ((List.range' 1 r₀.db.project.target_chapters).map (checkedChapter o))
        (postLoopRun o r₀.db.project.target_chapters
          (plotOkRun (charOkRun r₀.db.project.characters (worldOkRun (initState r₀)))))
      = (.ok ((List.range' 1 r₀.db.project.target_chapters).map (checkedChapter o)),
         finalUpdate
           ((List.range' 1 r₀.db.project.target_chapters).map (checkedChapter o))
           (fmtOkRun (postLoopRun o r₀.db.project.target_chapters
             (plotOkRun (charOkRun r₀.db.project.characters (worldOkRun (initState r₀))))))) := by
    unfold orchPhase5
    rw [MasterOrchestrator.format_ok o d hrd]
  rw [e1, e2, e3, e4, e5]
  rfl

/-- Chapters committed by a fully successful run. -/
theorem successRun_chapters (o : Oracle) (r₀ : RunState) :
    (successRun o r₀).db.project.chapters
      = r₀.db.project.chapters
        ++ (List.range' 1 r₀.db.project.target_chapters).map (checkedChapter o) := by
  simp [successRun, postLoopRun, plotOkRun, charOkRun, worldOkRun,
    storyLoopState_chapters, charLoopState_chapters]

/-- Write trace of a fully successful run (including the final update). -/
theorem finalSuccess_writes (o : Oracle) (r₀ : RunState) (chs : List ChapterContent) :
    (finalUpdate chs (successRun o r₀)).writes
      = r₀.writes
        ++ successWrites r₀.db.project.characters r₀.db.project.target_chapters := by
  simp [successRun, successWrites, postLoopRun, plotOkRun, charOkRun, worldOkRun,
    storyLoopState_writes, charLoopState_writes]

/-- The parsed chapter for number `n` carries `chapter_number = n` whatever
the checker returned. -/
theorem checkedChapter_number (o : Oracle) (n : Nat) :
    (checkedChapter o n).chapter_number = n := by
  unfold checkedChapter SequentialCheckerAgent.check_and_fix_chapter
  cases o.check n with
  | error e => rfl
  | ok resp =>
    simp only [SequentialCheckerAgent.apply_response]
    split
    · rfl
    · split <;> (try split) <;> rfl

/-- Splitting `range' 1 N` at a chapter `k` inside it. -/
theorem range'_split (k N : Nat) (h1 : 1 ≤ k) (h2 : k ≤ N) :
    List.range' 1 N = List.range' 1 (k - 1) ++ k :: List.range' (k + 1) (N - k) := by
  have h3 := List.range'_append 1 (k - 1) (N - k + 1) 1
  have e1 : 1 + 1 * (k - 1) = k := by omega
  have e2 : N - k + 1 + (k - 1) = N := by omega
  rw [e1, e2] at h3
  rw [← h3]
  congr 1

/-- Every `enumerate` index is below the starting index plus the length. -/
theorem pyEnum_fst_lt (l : List String) :
    ∀ i, ∀ q ∈ pyEnum i l, q.1 < i + l.length := by
  induction l with
  | nil => intro i q hq; simp [pyEnum] at hq
  | cons a as ih =>
    intro i q hq
    simp only [pyEnum, List.mem_cons] at hq
    rcases hq with rfl | hq
    · show i < i + (a :: as).length
      simp only [List.length_cons]
      omega
    · have := ih (i + 1) q hq
      simp only [List.length_cons]
      omega

/-! ## Support for the context-window claims -/

/-- A chapter with its content truncated to its first `k` characters. -/
def truncContent (k : Nat) (ch : ChapterContent) : ChapterContent :=
  { ch with content := pyTake k ch.content }

theorem pyTake_idem (k : Nat) (s : String) : pyTake k (pyTake k s) = pyTake k s := by
  simp [pyTake, List.take_take]

theorem summaryLine_trunc (k : Nat) (ch : ChapterContent) :
    summaryLine k (truncContent k ch) = summaryLine k ch := by
  simp [summaryLine, truncContent, pyTake_idem]

theorem foldl_summaryLine_trunc (k : Nat) (l : List ChapterContent) (init : String) :
    (l.map (truncContent k)).foldl (fun acc ch => acc ++ summaryLine k ch) init
      = l.foldl (fun acc ch => acc ++ summaryLine k ch) init := by
  induction l generalizing init with
  | nil => rfl
  | cons ch t ih => simp [List.foldl_cons, summaryLine_trunc, ih]

theorem prev_summary_window (chs : List ChapterContent) :
    MasterOrchestrator.previous_chapters_summary chs
      = MasterOrchestrator.previous_chapters_summary (chs.drop (chs.length - 2)) := by
  rcases chs with _ | ⟨c, t⟩
  · rfl
  · have hlen : ((c :: t).drop ((c :: t).length - 2)).length
        = (c :: t).length - ((c :: t).length - 2) := List.length_drop _ _
    have hcons : (c :: t).length = t.length + 1 := rfl
    have hne : (c :: t).drop ((c :: t).length - 2) ≠ [] := by
      intro hnil
      rw [hnil] at hlen
      simp at hlen
      omega
    have hz : ((c :: t).drop ((c :: t).length - 2)).length - 2 = 0 := by
      rw [hlen]; omega
    unfold MasterOrchestrator.previous_chapters_summary
    rw [if_neg (by simp), if_neg hne, hz, List.drop_zero]

theorem prev_summary_trunc (chs : List ChapterContent) :
    MasterOrchestrator.previous_chapters_summary chs
      = MasterOrchestrator.previous_chapters_summary (chs.map (truncContent 200)) := by
  rcases chs with _ | ⟨c, t⟩
  · rfl
  · unfold MasterOrchestrator.previous_chapters_summary
    rw [if_neg (by simp), if_neg (by simp)]
    rw [List.length_map, ← List.map_drop, foldl_summaryLine_trunc]

theorem checker_summary_trunc (chs : List ChapterContent) :
    SequentialCheckerAgent.get_context_summary chs
      = SequentialCheckerAgent.get_context_summary (chs.map (truncContent 150)) := by
  rcases chs with _ | ⟨c, t⟩
  · rfl
  · unfold SequentialCheckerAgent.get_context_summary
    rw [if_neg (by simp), if_neg (by simp)]
    rw [foldl_summaryLine_trunc]

/-! ## Support for the title and body extraction claim -/

theorem splitFuel_ne_nil (sep : List Char) (fuel : Nat) (l acc : List Char) :
    splitFuel sep fuel l acc ≠ [] := by
  induction fuel generalizing l acc with
  | zero => simp [splitFuel]
  | succ fuel ih =>
    cases l with
    | nil => simp [splitFuel]
    | cons c rest =>
      simp only [splitFuel]
      split
      · simp
      · exact ih rest (c :: acc)

theorem pySplit_ne_nil (s sep : String) : pySplit s sep ≠ [] := by
  unfold pySplit
  intro h
  exact splitFuel_ne_nil sep.data (s.data.length + 1) s.data [] (List.map_eq_nil_iff.mp h)

theorem pySplitNL2_head (raw : String) :
    (pySplitNL2 raw).headD "" = (pySplit raw "\n").headD "" := by
  unfold pySplitNL2
  cases h : pySplit raw "\n" with
  | nil => simp
  | cons a rest =>
    dsimp only
    split <;> simp

/-- Title extraction as claim C7 words it: markup character, the word
Chapter, and the chapter number stripped from the first line (no colon
stripping mentioned). -/
def claimTitle (chapter_num : Nat) (raw : String) : String :=
  let firstLine := (pySplit raw "\n").headD ""
  let t := pyStrip (pyReplace (pyReplace (pyReplace
    (pyStrip firstLine) "#" "") "Chapter" "") (toString chapter_num) "")
  if t = "" then "Chapter " ++ toString chapter_num else t

/-- Body as claim C7 words it: the remaining lines (all lines after the
first) form the body. -/
def claimBody (raw : String) : String :=
  pyStrip (joinNL ((pySplit raw "\n").drop 1))

/-- Title extraction as amended: additionally, every colon is stripped. -/
def specTitle (chapter_num : Nat) (raw : String) : String :=
  let firstLine := (pySplit raw "\n").headD ""
  let t := pyStrip (pyReplace (pyReplace (pyReplace (pyReplace
    (pyStrip firstLine) "#" "") "Chapter" "") (toString chapter_num) "") ":" "")
  if t = "" then "Chapter " ++ toString chapter_num else t

/-- Body as amended: the lines after the first, trimmed — except that a raw
text with no newline at all is used whole (title line included). -/
def specBody (raw : String) : String :=
  if (pySplit raw "\n").length = 1 then raw
  else pyStrip (joinNL ((pySplit raw "\n").drop 1))

theorem extract_title_eq_spec (n : Nat) (raw : String) :
    MasterOrchestrator.extract_title n raw = specTitle n raw := by
  unfold MasterOrchestrator.extract_title specTitle
  rw [pySplitNL2_head]

theorem joinNL_pair (a b : String) (t : List String) :
    joinNL [a, joinNL (b :: t)] = joinNL (a :: b :: t) := rfl

theorem extract_body_eq_spec (raw : String) :
    MasterOrchestrator.extract_body raw = specBody raw := by
  unfold MasterOrchestrator.extract_body specBody pySplitNL2
  cases h : pySplit raw "\n" with
  | nil => exact absurd h (pySplit_ne_nil raw "\n")
  | cons p0 rest =>
    cases rest with
    | nil => simp
    | cons p1 rest2 =>
      cases rest2 with
      | nil => simp [joinNL]
      | cons p2 rest3 =>
        cases rest3 with
        | nil => simp [joinNL]
        | cons p3 rest4 =>
          have hlen : ¬ (p0 :: p1 :: p2 :: p3 :: rest4).length ≤ 3 := by
            simp [List.length_cons]
          have hlen1 : ¬ (p0 :: p1 :: p2 :: p3 :: rest4).length = 1 := by
            simp [List.length_cons]
          simp only [hlen, if_false, if_neg hlen1, List.take, List.drop,
            List.cons_append, List.nil_append]
          rw [joinNL_pair]

/-! ## Claim theorems -/

/-- Claim C9: the progress-report operation is idempotent — for every project
id, stage name, status, percentage, task and error message, performing
`BaseAgent.update_progress` twice in succession with the same arguments
leaves the stored stage-progress rows and the project document identical to
the state after performing it once.  (The wall-clock `updated_at` timestamp
is outside the embedding.) -/
theorem claim_C9_report_idempotent (name : String) (status : AgentStatusEnum)
    (progress : Rat) (task error : Option String) (db : DBState) :
    BaseAgent.update_progress name status progress task error
        (BaseAgent.update_progress name status progress task error db)
      = BaseAgent.update_progress name status progress task error db := by
  unfold BaseAgent.update_progress
  congr 1
  funext n
  by_cases h : n = name <;> simp [h]

/-- Claim C10: every progress report through `BaseAgent.update_progress`
overwrites the `current_status`, `progress_percentage` and `current_agent`
fields of the project document with the own status, percentage and
name; in particular a report of `completed` at 100 makes the project-level
status read `"completed"` with overall progress 100 while leaving the
chapter list untouched (so this happens even though later stages have not
run). -/
theorem claim_C10_report_overwrites_project :
    (∀ (name : String) (status : AgentStatusEnum) (progress : Rat)
        (task error : Option String) (db : DBState),
      (BaseAgent.update_progress name status progress task error db).project.current_status
          = status.value ∧
      (BaseAgent.update_progress name status progress task error db).project.progress_percentage
          = progress ∧
      (BaseAgent.update_progress name status progress task error db).project.current_agent
          = some name) ∧
    (∀ (name : String) (task error : Option String) (db : DBState),
      (BaseAgent.update_progress name .completed 100 task error db).project.current_status
          = "completed" ∧
      (BaseAgent.update_progress name .completed 100 task error db).project.progress_percentage
          = 100 ∧
      (BaseAgent.update_progress name .completed 100 task error db).project.chapters
          = db.project.chapters) :=
  ⟨fun _ _ _ _ _ _ => ⟨rfl, rfl, rfl⟩, fun _ _ _ _ => ⟨rfl, rfl, rfl⟩⟩

/-- A small concrete chapter record for the context-window counterexample. -/
def sampleChapter (n : Nat) : ChapterContent :=
  { chapter_number := n, title := "T", content := "AB", word_count := 1 }

/-- Claim C6 counterexample: with four prior chapters, the checker context
summary is NOT restricted to the most recent 3 — it differs from the summary
of the last three chapters and mentions chapter 1
(`_get_context_summary` iterates over all previous chapters). -/
theorem claim_C6_counterexample :
    (SequentialCheckerAgent.get_context_summary
        [sampleChapter 1, sampleChapter 2, sampleChapter 3, sampleChapter 4]
      ≠ SequentialCheckerAgent.get_context_summary
        [sampleChapter 2, sampleChapter 3, sampleChapter 4]) ∧
    pyContains
      (SequentialCheckerAgent.get_context_summary
        [sampleChapter 1, sampleChapter 2, sampleChapter 3, sampleChapter 4])
      "Chapter 1" = true := by
  decide

/-- Claim C6 as amended: the prose-generation summary depends only on the
most recent 2 prior chapters and only on the first 200 characters of each
content of each chapter; the consistency-check summary covers ALL prior chapters
(not only the most recent 3) but likewise only the first 150 characters of
each. -/
theorem claim_C6_amended :
    (∀ chs, MasterOrchestrator.previous_chapters_summary chs
        = MasterOrchestrator.previous_chapters_summary (chs.drop (chs.length - 2))) ∧
    (∀ chs, MasterOrchestrator.previous_chapters_summary chs
        = MasterOrchestrator.previous_chapters_summary (chs.map (truncContent 200))) ∧
    (∀ chs, SequentialCheckerAgent.get_context_summary chs
        = SequentialCheckerAgent.get_context_summary (chs.map (truncContent 150))) :=
  ⟨prev_summary_window, prev_summary_trunc, checker_summary_trunc⟩

/-- Claim C7 counterexample: on a single-line raw text the body is the whole
raw text (title line included) and the word count counts it, where the claim
predicts an empty body with word count 0; and a colon in the first line is
stripped from the title, which the claim does not predict. -/
theorem claim_C7_counterexample :
    ((MasterOrchestrator.generate_single_chapter 1 "Hello world").content = "Hello world" ∧
     (MasterOrchestrator.generate_single_chapter 1 "Hello world").word_count = 2 ∧
     claimBody "Hello world" = "" ∧
     pyWordCount (claimBody "Hello world") = 0 ∧
     (MasterOrchestrator.generate_single_chapter 1 "Hello world").content
       ≠ claimBody "Hello world") ∧
    ((MasterOrchestrator.generate_single_chapter 3 "Re: Start\nBody").title = "Re Start" ∧
     claimTitle 3 "Re: Start\nBody" = "Re: Start" ∧
     (MasterOrchestrator.generate_single_chapter 3 "Re: Start\nBody").title
       ≠ claimTitle 3 "Re: Start\nBody") := by
  decide

/-- Claim C7 as amended: for every chapter number and raw text, the produced
record has the chapter number; the title is the first line with markup
characters, colons, the word Chapter and the chapter number stripped,
falling back to the label Chapter-n when empty; the body is the trimmed
remaining lines when the raw text has at least two lines and the whole raw
text when it has none; and the word count is the number of
whitespace-separated tokens of that body. -/
theorem claim_C7_amended (n : Nat) (raw : String) :
    MasterOrchestrator.generate_single_chapter n raw
      = { chapter_number := n, title := specTitle n raw, content := specBody raw,
          word_count := pyWordCount (specBody raw) } := by
  unfold MasterOrchestrator.generate_single_chapter
  rw [extract_title_eq_spec, extract_body_eq_spec]

/-- Mapping `chapter_number` over the chapters of a successful run gives back
the chapter numbers themselves. -/
theorem map_number_checked (o : Oracle) (s n : Nat) :
    ((List.range' s n).map (checkedChapter o)).map (fun ch => ch.chapter_number)
      = List.range' s n := by
  rw [List.map_map]
  have h : ((fun ch => ch.chapter_number) ∘ checkedChapter o) = fun m => m :=
    funext fun m => checkedChapter_number o m
  rw [h, List.map_id']

/-- Claim C2: for every target chapter count `N ≥ 1`, a run that completes
without an uncaught error commits exactly `N` chapter records whose
`chapter_number` fields are exactly `1..N` in order with no gaps or
duplicates, and the final `total_word_count` equals the sum of the word
counts of those `N` chapters. -/
theorem claim_C2_run_commits_exact_chapters (o : Oracle) (r₀ : RunState)
    (N : Nat) (w p d : String)
    (hN : 1 ≤ N) (htc : r₀.db.project.target_chapters = N)
    (hw : o.world = .ok w) (hchar : ∀ i, okE (o.character i))
    (hpl : o.plot = .ok p) (hpr : ∀ n, okE (o.prose n))
    (hrd : o.render = .ok d) :
    ∃ chs rF,
      MasterOrchestrator.orchestrate_story_generation o r₀ = (.ok chs, rF) ∧
      chs.length = N ∧
      chs.map (fun ch => ch.chapter_number) = List.range' 1 N ∧
      rF.db.project.chapters = r₀.db.project.chapters ++ chs ∧
      rF.db.project.total_word_count = (chs.map fun ch => ch.word_count).sum := by
  have heq := MasterOrchestrator.orchestrate_ok o r₀ w p d hw hchar hpl
    (fun n _ => hpr n) hrd
  rw [htc] at heq
  have hch := successRun_chapters o r₀
  rw [htc] at hch
  refine ⟨_, _, heq, ?_, ?_, ?_, ?_⟩
  · simp [List.length_range']
  · exact map_number_checked o 1 N
  · simp [hch]
  · simp

/-- Claim C2 witness: the theorem applied to a concrete 1-chapter project
and a fully successful oracle. -/
theorem claim_C2_witness :
    ∃ chs rF,
      MasterOrchestrator.orchestrate_story_generation okOracle (run0 (baseProject 1))
        = (.ok chs, rF) ∧
      chs.length = 1 ∧
      chs.map (fun ch => ch.chapter_number) = List.range' 1 1 ∧
      rF.db.project.chapters = (run0 (baseProject 1)).db.project.chapters ++ chs ∧
      rF.db.project.total_word_count = (chs.map fun ch => ch.word_count).sum :=
  claim_C2_run_commits_exact_chapters okOracle (run0 (baseProject 1)) 1 "WB" "PS"
    "/app/backend/generated_books/Book_p.docx" (by decide) rfl rfl
    (fun _ => ⟨"CP", rfl⟩) rfl (fun _ => ⟨"The Title\nSome body text here", rfl⟩) rfl

/-- Claim C3: for every chapter `k` of `N`, if the checker call for `k`
raises, the run is not aborted: the committed record for chapter `k` has
`sequential_check_passed = true` and a non-empty `issues_found` list whose
single entry describes the checker failure, the chapter is committed, and
the loop continues so that all `N` chapters are produced. -/
theorem claim_C3_checker_softfail (o : Oracle) (r₀ : RunState)
    (N k : Nat) (e w p d : String)
    (hk1 : 1 ≤ k) (hkN : k ≤ N) (htc : r₀.db.project.target_chapters = N)
    (hw : o.world = .ok w) (hchar : ∀ i, okE (o.character i))
    (hpl : o.plot = .ok p) (hpr : ∀ n, okE (o.prose n))
    (hrd : o.render = .ok d) (hck : o.check k = .error e) :
    ∃ chs rF,
      MasterOrchestrator.orchestrate_story_generation o r₀ = (.ok chs, rF) ∧
      chs.length = N ∧
      chs.get? (k - 1) = some (checkedChapter o k) ∧
      (checkedChapter o k).chapter_number = k ∧
      (checkedChapter o k).sequential_check_passed = true ∧
      (checkedChapter o k).issues_found = ["Checker error: " ++ e] ∧
      rF.db.project.chapters = r₀.db.project.chapters ++ chs := by
  have heq := MasterOrchestrator.orchestrate_ok o r₀ w p d hw hchar hpl
    (fun n _ => hpr n) hrd
  rw [htc] at heq
  have hch := successRun_chapters o r₀
  rw [htc] at hch
  refine ⟨_, _, heq, ?_, ?_, checkedChapter_number o k, ?_, ?_, ?_⟩
  · simp [List.length_range']
  · rw [List.get?_map]
    have hik : k - 1 < N := by omega
    rw [List.get?_range' _ _ hik]
    have h1k : 1 + 1 * (k - 1) = k := by omega
    rw [h1k, Option.map_some']
  · simp [checkedChapter, SequentialCheckerAgent.check_and_fix_chapter, hck]
  · simp [checkedChapter, SequentialCheckerAgent.check_and_fix_chapter, hck]
  · simp [hch]

/-- An oracle on which every checker call raises but everything else
succeeds. -/
def checkFailOracle : Oracle :=
  { okOracle with check := fun _ => .error "service unavailable" }

/-- Claim C3 witness: the theorem applied at chapter 1 of a concrete
2-chapter project with a failing checker. -/
theorem claim_C3_witness :
    ∃ chs rF,
      MasterOrchestrator.orchestrate_story_generation checkFailOracle (run0 (baseProject 2))
        = (.ok chs, rF) ∧
      chs.length = 2 ∧
      chs.get? 0 = some (checkedChapter checkFailOracle 1) ∧
      (checkedChapter checkFailOracle 1).chapter_number = 1 ∧
      (checkedChapter checkFailOracle 1).sequential_check_passed = true ∧
      (checkedChapter checkFailOracle 1).issues_found
        = ["Checker error: " ++ "service unavailable"] ∧
      rF.db.project.chapters = (run0 (baseProject 2)).db.project.chapters ++ chs :=
  claim_C3_checker_softfail checkFailOracle (run0 (baseProject 2)) 2 1
    "service unavailable" "WB" "PS" "/app/backend/generated_books/Book_p.docx"
    (by decide) (by decide) rfl rfl (fun _ => ⟨"CP", rfl⟩) rfl
    (fun _ => ⟨"The Title\nSome body text here", rfl⟩) rfl rfl

/-- After successful worldbuilding, character and plot phases, the run is at
phase 4 in the explicit state. -/
theorem MasterOrchestrator.orchestrate_phases (o : Oracle) (r₀ : RunState)
    (w p : String) (hw : o.world = .ok w) (hchar : ∀ i, okE (o.character i))
    (hpl : o.plot = .ok p) :
    MasterOrchestrator.orchestrate_story_generation o r₀
      = orchPhase4 o r₀.db.project.target_chapters
          (plotOkRun (charOkRun r₀.db.project.characters (worldOkRun (initState r₀)))) := by
  have e1 : MasterOrchestrator.orchestrate_story_generation o r₀
      = orchPhase2 o (worldOkRun (initState r₀)) := by
    unfold MasterOrchestrator.orchestrate_story_generation
    rw [world_process_ok o w hw]
  have hchars : (worldOkRun (initState r₀)).db.project.characters
      = r₀.db.project.characters := by
    simp [worldOkRun]
  have e2 : orchPhase2 o (worldOkRun (initState r₀))
      = orchPhase3 o
          (charOkRun r₀.db.project.characters (worldOkRun (initState r₀))) := by
    unfold orchPhase2
    rw [hchars, character_process_ok o hchar]
  have htgt :
      (charOkRun r₀.db.project.characters (worldOkRun (initState r₀))).db.project.target_chapters
        = r₀.db.project.target_chapters := by
    simp [charOkRun, charLoopState_target, worldOkRun]
  have e3 : orchPhase3 o
        (charOkRun r₀.db.project.characters (worldOkRun (initState r₀)))
      = orchPhase4 o r₀.db.project.target_chapters
          (plotOkRun (charOkRun r₀.db.project.characters (worldOkRun (initState r₀)))) := by
    unfold orchPhase3
    rw [htgt, plot_process_ok o p hpl]
  rw [e1, e2, e3]

/-- A prose failure at chapter `k` aborts the chapter loop with the first
`k - 1` chapters committed. -/
theorem MasterOrchestrator.generate_fail (o : Oracle) (cc k : Nat) (e : String)
    (hk1 : 1 ≤ k) (hk : k ≤ cc)
    (h1 : ∀ n ∈ List.range' 1 (k - 1), okE (o.prose n))
    (h2 : o.prose k = .error e) (r : RunState) :
    MasterOrchestrator.generate_and_check_story o cc r
      = (.error e,
         updTrack "StoryGeneratorAgent" .running ((k : Rat) / (cc : Rat) * 85)
           (some ("Writing Chapter " ++ toString k)) none
           (storyLoopState o cc (List.range' 1 (k - 1)) r)) := by
  unfold MasterOrchestrator.generate_and_check_story
  rw [range'_split k cc hk1 hk,
    MasterOrchestrator.story_loop_fail o cc (List.range' 1 (k - 1)) k
      (List.range' (k + 1) (cc - k)) e h1 h2]

/-- Claim C4: if the prose-generation call raises on chapter `k` of `N`
(`k ≥ 2`), the project status is set to "error", the exception is re-raised
(the result of the run is that error), chapters `1..k-1` remain committed with no
rollback, and chapters `k..N` are absent (the chapters committed during the
run are exactly those numbered `1..k-1`). -/
theorem claim_C4_prose_failure (o : Oracle) (r₀ : RunState)
    (N k : Nat) (e w p : String)
    (hk2 : 2 ≤ k) (hkN : k ≤ N) (htc : r₀.db.project.target_chapters = N)
    (hw : o.world = .ok w) (hchar : ∀ i, okE (o.character i))
    (hpl : o.plot = .ok p)
    (hpr : ∀ n ∈ List.range' 1 (k - 1), okE (o.prose n))
    (hke : o.prose k = .error e) :
    ∃ rF,
      MasterOrchestrator.orchestrate_story_generation o r₀ = (.error e, rF) ∧
      rF.db.project.current_status = "error" ∧
      rF.db.project.chapters
        = r₀.db.project.chapters ++ (List.range' 1 (k - 1)).map (checkedChapter o) ∧
      ((List.range' 1 (k - 1)).map (checkedChapter o)).map (fun ch => ch.chapter_number)
        = List.range' 1 (k - 1) := by
  have hphase := MasterOrchestrator.orchestrate_phases o r₀ w p hw hchar hpl
  rw [htc] at hphase
  rw [hphase]
  unfold orchPhase4
  rw [MasterOrchestrator.generate_fail o N k e (by omega) hkN hpr hke]
  refine ⟨_, rfl, ?_, ?_, map_number_checked o 1 (k - 1)⟩
  · simp
  · simp [storyLoopState_chapters, plotOkRun, charOkRun, worldOkRun,
      charLoopState_chapters]

/-- An oracle whose prose call fails exactly on chapter 2. -/
def proseFailOracle : Oracle :=
  { okOracle with
    prose := fun n =>
      if n = 2 then .error "generation failed"
      else .ok "The Title\nSome body text here" }

/-- Claim C4 witness: the theorem applied to a concrete 3-chapter project
whose prose call fails on chapter 2. -/
theorem claim_C4_witness :
    ∃ rF,
      MasterOrchestrator.orchestrate_story_generation proseFailOracle
          (run0 (baseProject 3))
        = (.error "generation failed", rF) ∧
      rF.db.project.current_status = "error" ∧
      rF.db.project.chapters
        = (run0 (baseProject 3)).db.project.chapters
          ++ (List.range' 1 (2 - 1)).map (checkedChapter proseFailOracle) ∧
      ((List.range' 1 (2 - 1)).map (checkedChapter proseFailOracle)).map
          (fun ch => ch.chapter_number)
        = List.range' 1 (2 - 1) :=
  claim_C4_prose_failure proseFailOracle (run0 (baseProject 3)) 3 2
    "generation failed" "WB" "PS" (by decide) (by decide) rfl rfl
    (fun _ => ⟨"CP", rfl⟩) rfl
    (by
      intro n hn
      have h1 : n = 1 := by simpa using hn
      subst h1
      exact ⟨"The Title\nSome body text here", rfl⟩)
    rfl

/-- The writes made by the story generator while it is running: agent name
`"StoryGeneratorAgent"` with status `"running"`. -/
def sgRunningPred (x : ProgressWrite) : Bool :=
  decide (x.agent = "StoryGeneratorAgent") && decide (x.status = "running")

theorem filter_sg_charWrites (total : Nat) (l : List (Nat × String)) :
    (l.map (charWrite total)).filter sgRunningPred = [] := by
  induction l with
  | nil => rfl
  | cons q t ih => simp [charWrite, sgRunningPred, ih]

theorem filter_sg_perChapter (cc : Nat) (ns : List Nat) :
    (perChapterWrites cc ns).filter sgRunningPred = ns.map (sgWrite cc) := by
  induction ns with
  | nil => rfl
  | cons n t ih => simp [perChapterWrites, sgWrite, ckWrite, sgRunningPred, ih]

/-- Claim C5 counterexample: in a concrete fully successful run of a
1-chapter project, the single progress value reported while writing chapter
1 is `(1/1)*85 = 85`, not `5 + (1/1)*85 = 90` as claimed: the live loop in
`_generate_and_check_story` (orchestrator.py line 151) has no `5 +` offset
(that formula exists only in the never-called `StoryGeneratorAgent.process`). -/
theorem claim_C5_counterexample :
    (((MasterOrchestrator.orchestrate_story_generation okOracle
          (run0 (baseProject 1))).2.writes.filter sgRunningPred).map
        (fun x => (x.task, x.percentage))
      = [(some ("Writing Chapter " ++ toString 1), (1 : Rat) / (1 : Rat) * 85)]) ∧
    (1 : Rat) / (1 : Rat) * 85 ≠ 5 + (1 : Rat) / (1 : Rat) * 85 := by
  constructor
  · have heq := MasterOrchestrator.orchestrate_ok okOracle (run0 (baseProject 1))
      "WB" "PS" "/app/backend/generated_books/Book_p.docx" rfl
      (fun _ => ⟨"CP", rfl⟩) rfl
      (fun n _ => ⟨"The Title\nSome body text here", rfl⟩) rfl
    rw [heq]
    have hwr := finalSuccess_writes okOracle (run0 (baseProject 1))
      ((List.range' 1 (run0 (baseProject 1)).db.project.target_chapters).map
        (checkedChapter okOracle))
    rw [hwr]
    have hnm : (run0 (baseProject 1)).db.project.characters = ["Ava"] := rfl
    have ht1 : (run0 (baseProject 1)).db.project.target_chapters = 1 := rfl
    have hwrit : (run0 (baseProject 1)).writes = [] := rfl
    rw [hnm, ht1, hwrit]
    have hr : List.range' 1 1 = [1] := rfl
    simp only [successWrites, List.nil_append, List.filter_append,
      filter_sg_charWrites, filter_sg_perChapter, hr]
    simp [sgRunningPred, sgWrite]
  · norm_num

/-- Claim C5 as amended: in a fully successful run over `N` chapters, the
sequence of writes made by the story generator while running is exactly one
write per chapter `n = 1..N`, with task "Writing Chapter n" and percentage
`(n/N)*85` — no `5 +` offset. -/
theorem claim_C5_amended (o : Oracle) (r₀ : RunState) (N : Nat) (w p d : String)
    (hN : 1 ≤ N) (htc : r₀.db.project.target_chapters = N)
    (hw0 : r₀.writes = [])
    (hw : o.world = .ok w) (hchar : ∀ i, okE (o.character i))
    (hpl : o.plot = .ok p) (hpr : ∀ n, okE (o.prose n))
    (hrd : o.render = .ok d) :
    (((MasterOrchestrator.orchestrate_story_generation o r₀).2.writes.filter
        sgRunningPred).map (fun x => (x.task, x.percentage)))
      = (List.range' 1 N).map
          (fun (n : Nat) => (some ("Writing Chapter " ++ toString n),
                     (n : Rat) / (N : Rat) * 85)) := by
  have heq := MasterOrchestrator.orchestrate_ok o r₀ w p d hw hchar hpl
    (fun n _ => hpr n) hrd
  rw [htc] at heq
  rw [heq]
  have hwr := finalSuccess_writes o r₀
    ((List.range' 1 N).map (checkedChapter o))
  rw [htc] at hwr
  rw [hwr, hw0]
  simp only [successWrites, List.nil_append, List.filter_append,
    filter_sg_charWrites, filter_sg_perChapter]
  conv_lhs => simp [sgRunningPred, sgWrite]
  rfl

/-- Claim C5 (amended) witness: the theorem applied to a concrete 2-chapter
project with a fully successful oracle. -/
theorem claim_C5_amended_witness :
    (((MasterOrchestrator.orchestrate_story_generation okOracle
          (run0 (baseProject 2))).2.writes.filter sgRunningPred).map
        (fun x => (x.task, x.percentage)))
      = (List.range' 1 2).map
          (fun (n : Nat) => (some ("Writing Chapter " ++ toString n),
                     (n : Rat) / ((2 : Nat) : Rat) * 85)) :=
  claim_C5_amended okOracle (run0 (baseProject 2)) 2 "WB" "PS"
    "/app/backend/generated_books/Book_p.docx" (by decide) rfl rfl rfl
    (fun _ => ⟨"CP", rfl⟩) rfl (fun _ => ⟨"The Title\nSome body text here", rfl⟩) rfl

/-! ## Support for the progress-bounds claim -/

theorem ckWrite_mem_perChapter (cc n : Nat) (ns : List Nat) (h : n ∈ ns) :
    ckWrite n ∈ perChapterWrites cc ns := by
  induction ns with
  | nil => cases h
  | cons m ms ih =>
    rcases List.mem_cons.mp h with rfl | h2
    · simp [perChapterWrites]
    · simp only [perChapterWrites, List.mem_cons]
      exact Or.inr (Or.inr (ih h2))

theorem perChapterWrites_mem (cc : Nat) (ns : List Nat) (x : ProgressWrite)
    (h : x ∈ perChapterWrites cc ns) :
    ∃ n ∈ ns, x = sgWrite cc n ∨ x = ckWrite n := by
  induction ns with
  | nil => cases h
  | cons m ms ih =>
    simp only [perChapterWrites, List.mem_cons] at h
    rcases h with rfl | rfl | h2
    · exact ⟨m, List.mem_cons_self m ms, Or.inl rfl⟩
    · exact ⟨m, List.mem_cons_self m ms, Or.inr rfl⟩
    · obtain ⟨n, hn, hx⟩ := ih h2
      exact ⟨n, List.mem_cons_of_mem _ hn, hx⟩

/-- Claim C8 counterexample: in a concrete fully successful 1-chapter run,
the writes made while status is "running" go 10, 50, 10, ... — the value at
position 1 is 50 and the value at position 2 is 10, a strict decrease (the
progress resets when the character stage begins); moreover in an 11-chapter
run the checker reports 110 percent for chapter 11, outside 0-100. -/
theorem claim_C8_counterexample :
    ((((MasterOrchestrator.orchestrate_story_generation okOracle
          (run0 (baseProject 1))).2.writes.filter
        (fun x => decide (x.status = "running"))).map
        (fun x => x.percentage)).get? 1 = some 50) ∧
    ((((MasterOrchestrator.orchestrate_story_generation okOracle
          (run0 (baseProject 1))).2.writes.filter
        (fun x => decide (x.status = "running"))).map
        (fun x => x.percentage)).get? 2 = some 10) ∧
    ¬ ((50 : Rat) ≤ 10) ∧
    ckWrite 11 ∈ (MasterOrchestrator.orchestrate_story_generation okOracle
        (run0 (baseProject 11))).2.writes ∧
    (ckWrite 11).status = "running" ∧
    (ckWrite 11).percentage = ((11 : Nat) : Rat) * 10 ∧
    ¬ (((11 : Nat) : Rat) * 10 ≤ 100) := by
  have heq1 := MasterOrchestrator.orchestrate_ok okOracle (run0 (baseProject 1))
    "WB" "PS" "/app/backend/generated_books/Book_p.docx" rfl
    (fun _ => ⟨"CP", rfl⟩) rfl
    (fun n _ => ⟨"The Title\nSome body text here", rfl⟩) rfl
  have heq11 := MasterOrchestrator.orchestrate_ok okOracle (run0 (baseProject 11))
    "WB" "PS" "/app/backend/generated_books/Book_p.docx" rfl
    (fun _ => ⟨"CP", rfl⟩) rfl
    (fun n _ => ⟨"The Title\nSome body text here", rfl⟩) rfl
  refine ⟨?_, ?_, by norm_num, ?_, rfl, rfl, ?_⟩
  · rw [heq1]
    have hwr := finalSuccess_writes okOracle (run0 (baseProject 1))
      ((List.range' 1 (run0 (baseProject 1)).db.project.target_chapters).map
        (checkedChapter okOracle))
    rw [hwr]
    rfl
  · rw [heq1]
    have hwr := finalSuccess_writes okOracle (run0 (baseProject 1))
      ((List.range' 1 (run0 (baseProject 1)).db.project.target_chapters).map
        (checkedChapter okOracle))
    rw [hwr]
    rfl
  · rw [heq11]
    have hwr := finalSuccess_writes okOracle (run0 (baseProject 11))
      ((List.range' 1 (run0 (baseProject 11)).db.project.target_chapters).map
        (checkedChapter okOracle))
    rw [hwr]
    have h11 : (run0 (baseProject 11)).db.project.target_chapters = 11 := rfl
    rw [h11]
    have hmem : ckWrite 11 ∈ perChapterWrites 11 (List.range' 1 11) :=
      ckWrite_mem_perChapter 11 11 (List.range' 1 11) (by decide)
    simp only [successWrites, List.mem_append]
    tauto
  · push_cast
    norm_num

theorem charWrite_bounds (total : Nat) (q : Nat × String) (h : q.1 < total) :
    0 ≤ (charWrite total q).percentage ∧ (charWrite total q).percentage ≤ 100 := by
  have h0 : (0 : Rat) ≤ (q.1 : Rat) / (total : Rat) :=
    div_nonneg (Nat.cast_nonneg _) (Nat.cast_nonneg _)
  have h1 : (q.1 : Rat) / (total : Rat) ≤ 1 :=
    div_le_one_of_le (by exact_mod_cast Nat.le_of_lt h) (Nat.cast_nonneg _)
  constructor
  · show (0 : Rat) ≤ 10 + (q.1 : Rat) / (total : Rat) * 80
    nlinarith
  · show 10 + (q.1 : Rat) / (total : Rat) * 80 ≤ 100
    nlinarith

theorem sgWrite_bounds (cc n : Nat) (h2 : n ≤ cc) :
    0 ≤ (sgWrite cc n).percentage ∧ (sgWrite cc n).percentage ≤ 100 := by
  have h0 : (0 : Rat) ≤ (n : Rat) / (cc : Rat) :=
    div_nonneg (Nat.cast_nonneg _) (Nat.cast_nonneg _)
  have h1 : (n : Rat) / (cc : Rat) ≤ 1 :=
    div_le_one_of_le (by exact_mod_cast h2) (Nat.cast_nonneg _)
  constructor
  · show (0 : Rat) ≤ (n : Rat) / (cc : Rat) * 85
    nlinarith
  · show (n : Rat) / (cc : Rat) * 85 ≤ 100
    nlinarith

theorem ckWrite_bounds (n : Nat) (h1 : n ≤ 10) :
    0 ≤ (ckWrite n).percentage ∧ (ckWrite n).percentage ≤ 100 := by
  have h2 : (n : Rat) ≤ 10 := by exact_mod_cast h1
  constructor
  · show (0 : Rat) ≤ (n : Rat) * 10
    positivity
  · show (n : Rat) * 10 ≤ 100
    linarith

/-- Claim C8 as amended: in a fully successful run over at most 10 target
chapters, every value written to the progress-percentage field of the project lies
within 0-100 (the 0-100 bound FAILS for chapter numbers above 10, where the
checker reports 10·n percent, and the sequence is NOT monotone across
stages: each stage restarts its own percentage, see the counterexample). -/
theorem claim_C8_amended (o : Oracle) (r₀ : RunState) (N : Nat) (w p d : String)
    (hN : 1 ≤ N) (hN10 : N ≤ 10) (htc : r₀.db.project.target_chapters = N)
    (hw0 : r₀.writes = [])
    (hw : o.world = .ok w) (hchar : ∀ i, okE (o.character i))
    (hpl : o.plot = .ok p) (hpr : ∀ n, okE (o.prose n)) (hrd : o.render = .ok d) :
    ∀ x ∈ (MasterOrchestrator.orchestrate_story_generation o r₀).2.writes,
      0 ≤ x.percentage ∧ x.percentage ≤ 100 := by
  have heq := MasterOrchestrator.orchestrate_ok o r₀ w p d hw hchar hpl
    (fun n _ => hpr n) hrd
  rw [htc] at heq
  have hwr := finalSuccess_writes o r₀ ((List.range' 1 N).map (checkedChapter o))
  rw [htc] at hwr
  intro x hx
  rw [heq, hwr, hw0] at hx
  simp only [List.nil_append, successWrites, List.mem_append, List.mem_cons,
    List.mem_map, List.not_mem_nil, or_false] at hx
  rcases hx with
    ((((rfl | rfl | rfl | rfl) | ⟨q, hq, rfl⟩) | (rfl | rfl | rfl | rfl)) | h)
      | (rfl | rfl)
  · exact ⟨by norm_num, by norm_num⟩
  · exact ⟨by norm_num, by norm_num⟩
  · exact ⟨by norm_num, by norm_num⟩
  · exact ⟨by norm_num, by norm_num⟩
  · refine charWrite_bounds r₀.db.project.characters.length q ?_
    have := pyEnum_fst_lt r₀.db.project.characters 0 q hq
    omega
  · exact ⟨by norm_num, by norm_num⟩
  · exact ⟨by norm_num, by norm_num⟩
  · exact ⟨by norm_num, by norm_num⟩
  · exact ⟨by norm_num, by norm_num⟩
  · obtain ⟨n, hn, hx⟩ := perChapterWrites_mem N (List.range' 1 N) x h
    have hbounds := List.mem_range'_1.mp hn
    rcases hx with rfl | rfl
    · exact sgWrite_bounds N n (by omega)
    · exact ckWrite_bounds n (by omega)
  · exact ⟨by norm_num, by norm_num⟩
  · exact ⟨by norm_num, by norm_num⟩

/-- Claim C8 (amended) witness: the theorem applied to a concrete 2-chapter
project with a fully successful oracle, instantiated at the checker write
for chapter 1 (which is in the write trace of that run). -/
theorem claim_C8_amended_witness :
    0 ≤ (ckWrite 1).percentage ∧ (ckWrite 1).percentage ≤ 100 := by
  refine claim_C8_amended okOracle (run0 (baseProject 2)) 2 "WB" "PS"
    "/app/backend/generated_books/Book_p.docx" (by decide) (by decide) rfl rfl rfl
    (fun _ => ⟨"CP", rfl⟩) rfl (fun _ => ⟨"The Title\nSome body text here", rfl⟩) rfl
    (ckWrite 1) ?_
  have heq := MasterOrchestrator.orchestrate_ok okOracle (run0 (baseProject 2))
    "WB" "PS" "/app/backend/generated_books/Book_p.docx" rfl
    (fun _ => ⟨"CP", rfl⟩) rfl
    (fun n _ => ⟨"The Title\nSome body text here", rfl⟩) rfl
  have hwr := finalSuccess_writes okOracle (run0 (baseProject 2))
    ((List.range' 1 (run0 (baseProject 2)).db.project.target_chapters).map
      (checkedChapter okOracle))
  rw [heq, hwr]
  have h2 : (run0 (baseProject 2)).db.project.target_chapters = 2 := rfl
  rw [h2]
  have hmem : ckWrite 1 ∈ perChapterWrites 2 (List.range' 1 2) :=
    ckWrite_mem_perChapter 2 1 (List.range' 1 2) (by decide)
  simp only [successWrites, List.mem_append]
  tauto

/-- The state of a run immediately after its worldbuilding phase — exactly
the prefix of `orchestrate_story_generation` up to the end of phase 1. -/
def midRunAfterWorld (o : Oracle) (r : RunState) :
    Except String String × RunState :=
  WorldbuildingAgent.process o (initState r)

/-- Claim C1 (code-bug evidence): on a concrete 2-chapter project, right
after the worldbuilding phase of a run — with zero chapters committed — the
`current_status` of the project document already reads "completed" at progress
100, because `BaseAgent.update_progress` copies the own status of every stage
into the project; the state occurs mid-run (its write trace is a proper
prefix of the write trace of the full run).  This violates the invariant the
claim states, so the status CAN read "completed" while later pipeline
stages have not yet run. -/
theorem claim_C1_completed_status_leak :
    ((midRunAfterWorld okOracle (run0 (baseProject 2))).2.db.project.current_status
        = "completed") ∧
    ((midRunAfterWorld okOracle (run0 (baseProject 2))).2.db.project.progress_percentage
        = 100) ∧
    ((midRunAfterWorld okOracle (run0 (baseProject 2))).2.db.project.chapters = []) ∧
    ((run0 (baseProject 2)).db.project.target_chapters = 2) ∧
    ((MasterOrchestrator.orchestrate_story_generation okOracle
        (run0 (baseProject 2))).2.writes.take 3
      = (midRunAfterWorld okOracle (run0 (baseProject 2))).2.writes) ∧
    (3 < (MasterOrchestrator.orchestrate_story_generation okOracle
        (run0 (baseProject 2))).2.writes.length) := by
  have hmid : midRunAfterWorld okOracle (run0 (baseProject 2))
      = (.ok "WB", worldOkRun (initState (run0 (baseProject 2)))) :=
    world_process_ok okOracle "WB" rfl _
  have heq := MasterOrchestrator.orchestrate_ok okOracle (run0 (baseProject 2))
    "WB" "PS" "/app/backend/generated_books/Book_p.docx" rfl
    (fun _ => ⟨"CP", rfl⟩) rfl
    (fun n _ => ⟨"The Title\nSome body text here", rfl⟩) rfl
  have hwr := finalSuccess_writes okOracle (run0 (baseProject 2))
    ((List.range' 1 (run0 (baseProject 2)).db.project.target_chapters).map
      (checkedChapter okOracle))
  refine ⟨?_, ?_, ?_, rfl, ?_, ?_⟩
  · rw [hmid]; rfl
  · rw [hmid]; rfl
  · rw [hmid]; rfl
  · rw [heq, hwr, hmid]
    rfl
  · rw [heq, hwr]
    decide
